import Mathlib

/-!
# Verification of the EdCatalyst server's idempotent notification dispatcher

This file gives a shallow embedding of the retry/dispatch logic of the
EdCatalyst server (`server.js` and its unnamed variant with TLS handling) and
proves the spec's claims about it.

The embedded code:
* `sendEmailWithRetry` — the bounded-retry helper of `server.js` (lines 64-110):
  a `for` loop over attempts `1..maxRetries`, an exponential backoff delay
  `min(1000 * 2^(attempt-1), 10000)` before every attempt after the first,
  substring-based classification of errors as network/retryable, and an
  immediate abort on non-network errors or on the last attempt.
* `sendEmailWithRetry2` — the variant of the unnamed source file
  (`part_002`, lines 218-293) whose network classification additionally
  accepts two TLS/handshake error messages and which waits an extra
  `2000 * attempt` ms after a TLS-class failure.
* `dispatch` — the `/api/send-confirmation` handler (`server.js`,
  lines 171-305): field validation, lookup of the registration record by
  email, the already-sent and max-attempts early returns, the send, and the
  success/failure store updates.

Nondeterministic external collaborators are passed in explicitly:
the email provider is a function `Nat → SendOutcome` giving the outcome of
each numbered attempt, and the two Firestore writes of the success/failure
paths may be told to throw via the `succWriteOk`/`failWriteOk` flags
(`storeErrMsg` is the message of the store error when the success-path write
throws).  Server-assigned timestamp fields (`emailSentAt`,
`lastEmailAttempt`) are omitted from the record: no claim mentions them.
-/

/-! ## Substring matching (JavaScript `String.prototype.includes`) -/

/-- `pat` occurs (contiguously) somewhere in `s`, on the underlying
character lists. -/
def listContains (pat : List Char) : List Char → Bool
  | [] => pat.isEmpty
  | c :: rest => pat.isPrefixOf (c :: rest) || listContains pat rest

/-- JavaScript's `s.includes(pat)`. -/
def strContains (s pat : String) : Bool :=
  listContains pat.data s.data

/-! ## The retrying sender of `server.js` (`sendEmailWithRetry`, lines 64-110) -/

/-- Outcome of one call of the external email provider: either a successful
acknowledgment, or a failure carrying the thrown error's message (a provider
error payload `data.error` is rethrown by the code as an `Error` with that
message, so both failure shapes are the same to the classifier). -/
inductive SendOutcome where
  | ok
  | err (msg : String)
deriving DecidableEq, Repr

/-- `server.js` lines 89-93: an error is classified as a network error when
its message contains one of five substrings. -/
def isNetworkError (msg : String) : Bool :=
  strContains msg "fetch failed" ||
  strContains msg "ETIMEDOUT" ||
  strContains msg "ECONNREFUSED" ||
  strContains msg "network" ||
  strContains msg "timeout"

/-- `server.js` line 73: `Math.min(1000 * Math.pow(2, attempt - 1), 10000)`. -/
def expDelay (attempt : Nat) : Nat :=
  min (1000 * 2 ^ (attempt - 1)) 10000

/-- The delay(s) waited at the top of the loop body for a given attempt
(`server.js` lines 72-76): one exponential-backoff wait when `attempt > 1`,
nothing before the first attempt. -/
def preWaits (attempt : Nat) : List Nat :=
  if 1 < attempt then [expDelay attempt] else []

/-- Observable result of a `sendEmailWithRetry` run: whether it returned
normally, how many times the provider was invoked, the chronological list of
waits (ms) performed, and the message of the error finally thrown (if any). -/
structure RetryResult where
  success : Bool
  invocations : Nat
  waits : List Nat
  errMsg : Option String
deriving DecidableEq, Repr

/-- One iteration of the `for (let attempt = 1; attempt <= maxRetries; ...)`
loop of `server.js` lines 67-107, at loop counter `attempt`, with `left`
iterations (including this one) remaining before the loop condition fails.
The `left = 0` base case is the loop exiting and `throw lastError` running
with `lastError` still undefined (reachable only when `maxRetries = 0`). -/
def retryGo (sender : Nat → SendOutcome) (maxRetries : Nat) :
    Nat → Nat → RetryResult
  | _, 0 => ⟨false, 0, [], none⟩
  | attempt, left + 1 =>
    match sender attempt with
    | .ok => ⟨true, 1, preWaits attempt, none⟩
    | .err msg =>
      if isNetworkError msg = true ∧ attempt ≠ maxRetries then
        let rest := retryGo sender maxRetries (attempt + 1) left
        ⟨rest.success, 1 + rest.invocations, preWaits attempt ++ rest.waits,
          rest.errMsg⟩
      else
        ⟨false, 1, preWaits attempt, some msg⟩

/-- `sendEmailWithRetry(emailConfig, maxRetries = 3)` of `server.js`:
run the loop from attempt 1. -/
def sendEmailWithRetry (sender : Nat → SendOutcome) (maxRetries : Nat) :
    RetryResult :=
  retryGo sender maxRetries 1 maxRetries

/-! ## The retrying sender of the unnamed variant (`part_002`, lines 218-293) -/

/-- `part_002` lines 283-284: the two TLS/handshake-class error messages. -/
def isTlsError (msg : String) : Bool :=
  strContains msg "DECODER routines::unsupported" ||
  strContains msg "Getting metadata from plugin failed"

/-- `part_002` lines 259-265: the variant's network classification also
accepts the two TLS/handshake messages. -/
def isNetworkError2 (msg : String) : Bool :=
  isNetworkError msg || isTlsError msg

/-- `part_002` lines 282-288: the extra wait performed at the end of the
`catch` block (after the retry decision) when the failure was TLS-class. -/
def sslWaits (msg : String) (attempt : Nat) : List Nat :=
  if isTlsError msg = true then [2000 * attempt] else []

/-- One iteration of the variant's retry loop (`part_002` lines 221-290). -/
def retryGo2 (sender : Nat → SendOutcome) (maxRetries : Nat) :
    Nat → Nat → RetryResult
  | _, 0 => ⟨false, 0, [], none⟩
  | attempt, left + 1 =>
    match sender attempt with
    | .ok => ⟨true, 1, preWaits attempt, none⟩
    | .err msg =>
      if isNetworkError2 msg = true ∧ attempt ≠ maxRetries then
        let rest := retryGo2 sender maxRetries (attempt + 1) left
        ⟨rest.success, 1 + rest.invocations,
          preWaits attempt ++ sslWaits msg attempt ++ rest.waits, rest.errMsg⟩
      else
        ⟨false, 1, preWaits attempt, some msg⟩

/-- The variant's `sendEmailWithRetry` (`part_002`): run the loop from
attempt 1. -/
def sendEmailWithRetry2 (sender : Nat → SendOutcome) (maxRetries : Nat) :
    RetryResult :=
  retryGo2 sender maxRetries 1 maxRetries

example : isNetworkError "ETIMEDOUT" = true := by decide
example : isNetworkError "request timeout" = true := by decide
example : isNetworkError "Invalid recipient address" = false := by decide
example : isTlsError "error:0308010C:DECODER routines::unsupported" = true := by
  decide
example :
    sendEmailWithRetry (fun a => if a ≤ 2 then .err "ETIMEDOUT" else .ok) 3
      = ⟨true, 3, [2000, 4000], none⟩ := by decide
example :
    sendEmailWithRetry (fun _ => .err "Invalid recipient address") 3
      = ⟨false, 1, [], some "Invalid recipient address"⟩ := by decide
example :
    sendEmailWithRetry2
      (fun a => if a = 1 then .err "DECODER routines::unsupported" else .ok) 3
      = ⟨true, 2, [2000, 2000], none⟩ := by decide

/-! ## The `/api/send-confirmation` handler (`server.js`, lines 171-305) -/

/-- JavaScript falsiness of a destructured request-body string field:
the field is absent (`undefined`) or the empty string. -/
def falsy : Option String → Bool
  | none => true
  | some s => s == ""

/-- `server.js` lines 176-181 and 223: `courseNames[course] || course`. -/
def courseName (course : String) : String :=
  if course = "web" then "WebCraft Pro: Full Stack Bootcamp"
  else if course = "cyber" then
    "Certified Cybersecurity Foundations and Practical Analyst Program (CCFPAP)"
  else if course = "data" then "Data Science & Machine Learning"
  else if course = "cloud" then "Cloud Computing & DevOps"
  else course

/-- A document of the `internship_registrations` collection, with the fields
the handler reads or writes.  A missing `emailAttempts` field is modelled as
`0`: JavaScript treats both `undefined` and `0` as falsy in the rate-limit
check, and Firestore's `increment(1)` turns both into `1`.  The
server-timestamp fields are omitted (no claim mentions them). -/
structure Registration where
  email : String
  name : String
  course : String
  confirmationEmailSent : Bool
  emailAttempts : Nat
  lastEmailError : Option String
deriving DecidableEq, Repr

/-- The query `registrationsRef.where('email', '==', email).get()` followed by
`querySnapshot.docs[0]`: the first document whose `email` field matches. -/
def findReg (store : List Registration) (emailS : String) : Option Registration :=
  store.find? (fun r => r.email == emailS)

/-- `querySnapshot.docs[0].ref.update(...)`: replace the first document whose
`email` field matches by its image under `f`. -/
def updateFirst (store : List Registration) (emailS : String)
    (f : Registration → Registration) : List Registration :=
  match store with
  | [] => []
  | r :: rest =>
    if r.email == emailS then f r :: rest else r :: updateFirst rest emailS f

/-- The success-path update (`server.js` lines 264-269): set
`confirmationEmailSent` and atomically increment `emailAttempts`. -/
def markSent (r : Registration) : Registration :=
  { r with confirmationEmailSent := true, emailAttempts := r.emailAttempts + 1 }

/-- The failure-path update (`server.js` lines 282-286): atomically increment
`emailAttempts` and record the error message. -/
def markFailed (msg : String) (r : Registration) : Registration :=
  { r with emailAttempts := r.emailAttempts + 1, lastEmailError := some msg }

/-- The document added by `registrationsRef.add` on a first successful send
(`server.js` lines 255-263): `confirmationEmailSent: true`,
`emailAttempts: 1`. -/
def newRegistration (emailS nameS courseS : String) : Registration :=
  ⟨emailS, nameS, courseName courseS, true, 1, none⟩

/-- The handler's externally visible outcomes. -/
inductive DispatchStatus where
  | badRequest
  | alreadySent
  | rateLimited
  | sent
  | serverError
deriving DecidableEq, Repr

/-- Result of one handler run: outcome, HTTP status code, the response body's
`alreadySent` flag, the store after the run, and the number of times the
external provider was invoked during the run. -/
structure DispatchResult where
  status : DispatchStatus
  httpCode : Nat
  alreadySentFlag : Bool
  store : List Registration
  senderCalls : Nat
deriving DecidableEq, Repr

/-- The inner `try`/`catch` around the send and the store writes
(`server.js` lines 249-290) together with the outer `catch` (lines 292-304),
given the result `res` of `sendEmailWithRetry` and whether each store write
would succeed.  When the send succeeded but the success-path write throws,
the `catch` records a failed attempt on an existing document (with the store
error's message) and rethrows; when the send failed, the `catch` records the
failed attempt (with the send error's message) and rethrows; a document is
only ever written when the lookup had found one (`!querySnapshot.empty`) or
on the success path's `add`. -/
def afterSend (store : List Registration) (emailS nameS courseS : String)
    (found : Option Registration) (res : RetryResult)
    (succWriteOk failWriteOk : Bool) (storeErrMsg : String) : DispatchResult :=
  match found with
  | none =>
    if res.success then
      if succWriteOk then
        ⟨.sent, 200, false, store ++ [newRegistration emailS nameS courseS],
          res.invocations⟩
      else
        ⟨.serverError, 500, false, store, res.invocations⟩
    else
      ⟨.serverError, 500, false, store, res.invocations⟩
  | some _ =>
    if res.success then
      if succWriteOk then
        ⟨.sent, 200, false, updateFirst store emailS markSent, res.invocations⟩
      else if failWriteOk then
        ⟨.serverError, 500, false,
          updateFirst store emailS (markFailed storeErrMsg), res.invocations⟩
      else
        ⟨.serverError, 500, false, store, res.invocations⟩
    else if failWriteOk then
      ⟨.serverError, 500, false,
        updateFirst store emailS (markFailed (res.errMsg.getD "")),
        res.invocations⟩
    else
      ⟨.serverError, 500, false, store, res.invocations⟩

/-- The `/api/send-confirmation` handler (`server.js` lines 171-305):
validate the three fields, look the registration up by email, return early
when the confirmation was already sent (200, `alreadySent: true`) or when
`emailAttempts` is truthy and at least 3 (429), otherwise send with
`sendEmailWithRetry` (default `maxRetries = 3`) and update the store. -/
def dispatch (store : List Registration) (name email course : Option String)
    (sender : Nat → SendOutcome) (succWriteOk failWriteOk : Bool)
    (storeErrMsg : String) : DispatchResult :=
  if falsy name || falsy email || falsy course then
    ⟨.badRequest, 400, false, store, 0⟩
  else
    let emailS := email.getD ""
    match findReg store emailS with
    | some r =>
      if r.confirmationEmailSent then
        ⟨.alreadySent, 200, true, store, 0⟩
      else if r.emailAttempts ≠ 0 ∧ 3 ≤ r.emailAttempts then
        ⟨.rateLimited, 429, false, store, 0⟩
      else
        afterSend store emailS (name.getD "") (course.getD "") (some r)
          (sendEmailWithRetry sender 3) succWriteOk failWriteOk storeErrMsg
    | none =>
      afterSend store emailS (name.getD "") (course.getD "") none
        (sendEmailWithRetry sender 3) succWriteOk failWriteOk storeErrMsg

/-- Sequential handler runs for the same request, each with its own provider
behaviour and store-write flags. -/
def dispatchSeq (name email course : Option String) (storeErrMsg : String) :
    List Registration → List ((Nat → SendOutcome) × Bool × Bool) →
    List Registration
  | store, [] => store
  | store, (sender, w1, w2) :: calls =>
    dispatchSeq name email course storeErrMsg
      (dispatch store name email course sender w1 w2 storeErrMsg).store calls

/-- The `emailAttempts` counter stored for a given email
(0 when no document exists). -/
def recAttempts (store : List Registration) (emailS : String) : Nat :=
  match findReg store emailS with
  | some r => r.emailAttempts
  | none => 0

example :
    dispatch [] (some "A") (some "a@x.com") (some "web")
      (fun a => if a ≤ 2 then .err "ETIMEDOUT" else .ok) true true "m"
      = ⟨.sent, 200, false,
          [⟨"a@x.com", "A", "WebCraft Pro: Full Stack Bootcamp", true, 1, none⟩],
          3⟩ := by decide
example :
    dispatch [] (some "B") (some "b@x.com") (some "web")
      (fun _ => .err "Invalid recipient address") true true "m"
      = ⟨.serverError, 500, false, [], 1⟩ := by decide
example :
    dispatch [⟨"c@x.com", "C", "web", false, 3, none⟩] (some "C")
      (some "c@x.com") (some "web") (fun _ => .ok) true true "m"
      = ⟨.rateLimited, 429, false, [⟨"c@x.com", "C", "web", false, 3, none⟩],
          0⟩ := by decide

/-! ## Lemmas about the retry loops -/

theorem expDelay_le_cap (attempt : Nat) : expDelay attempt ≤ 10000 :=
  Nat.min_le_right _ _

theorem expDelay_mono {a b : Nat} (h : a ≤ b) : expDelay a ≤ expDelay b :=
  min_le_min
    (Nat.mul_le_mul_left _ (Nat.pow_le_pow_right (by omega) (by omega)))
    Nat.le.refl

/-- The waits performed by `d` consecutive loop iterations starting at loop
counter `attempt`, when each of them takes the retry branch. -/
def expWaits (attempt : Nat) : Nat → List Nat
  | 0 => []
  | d + 1 => preWaits attempt ++ expWaits (attempt + 1) d

theorem retryGo_succ (sender : Nat → SendOutcome) (maxRetries attempt left : Nat) :
    retryGo sender maxRetries attempt (left + 1) =
      match sender attempt with
      | .ok => ⟨true, 1, preWaits attempt, none⟩
      | .err msg =>
        if isNetworkError msg = true ∧ attempt ≠ maxRetries then
          ⟨(retryGo sender maxRetries (attempt + 1) left).success,
            1 + (retryGo sender maxRetries (attempt + 1) left).invocations,
            preWaits attempt ++ (retryGo sender maxRetries (attempt + 1) left).waits,
            (retryGo sender maxRetries (attempt + 1) left).errMsg⟩
        else
          ⟨false, 1, preWaits attempt, some msg⟩ := rfl

theorem retryGo_ok {sender : Nat → SendOutcome} {attempt : Nat}
    (maxRetries left : Nat) (h : sender attempt = .ok) :
    retryGo sender maxRetries attempt (left + 1) =
      ⟨true, 1, preWaits attempt, none⟩ := by
  rw [retryGo_succ, h]

theorem retryGo_retry {sender : Nat → SendOutcome} {attempt : Nat} {msg : String}
    {maxRetries : Nat} (left : Nat) (h : sender attempt = .err msg)
    (hn : isNetworkError msg = true) (hne : attempt ≠ maxRetries) :
    retryGo sender maxRetries attempt (left + 1) =
      ⟨(retryGo sender maxRetries (attempt + 1) left).success,
        1 + (retryGo sender maxRetries (attempt + 1) left).invocations,
        preWaits attempt ++ (retryGo sender maxRetries (attempt + 1) left).waits,
        (retryGo sender maxRetries (attempt + 1) left).errMsg⟩ := by
  simp only [retryGo_succ, h]
  rw [if_pos ⟨hn, hne⟩]

theorem retryGo_fatal {sender : Nat → SendOutcome} {attempt : Nat} {msg : String}
    {maxRetries : Nat} (left : Nat) (h : sender attempt = .err msg)
    (hc : ¬(isNetworkError msg = true ∧ attempt ≠ maxRetries)) :
    retryGo sender maxRetries attempt (left + 1) =
      ⟨false, 1, preWaits attempt, some msg⟩ := by
  simp only [retryGo_succ, h]
  rw [if_neg hc]

/-- Skipping over a block of `d` retryable (network, not-last) failures:
the run performs the `d` backoff waits of those iterations and `d` provider
invocations, then continues from attempt `attempt + d`. -/
theorem retryGo_skip (sender : Nat → SendOutcome) (maxRetries : Nat) :
    ∀ (d attempt left : Nat), d ≤ left →
      (∀ j, j < d →
        (∃ m, sender (attempt + j) = .err m ∧ isNetworkError m = true) ∧
          attempt + j ≠ maxRetries) →
      retryGo sender maxRetries attempt left =
        ⟨(retryGo sender maxRetries (attempt + d) (left - d)).success,
          d + (retryGo sender maxRetries (attempt + d) (left - d)).invocations,
          expWaits attempt d ++
            (retryGo sender maxRetries (attempt + d) (left - d)).waits,
          (retryGo sender maxRetries (attempt + d) (left - d)).errMsg⟩ := by
  intro d
  induction d with
  | zero =>
    intro attempt left _ _
    simp [expWaits]
  | succ d ih =>
    intro attempt left hle hprev
    obtain ⟨left', rfl⟩ : ∃ l, left = l + 1 := ⟨left - 1, by omega⟩
    obtain ⟨⟨m, hm, hnet⟩, hne⟩ := hprev 0 (Nat.succ_pos d)
    rw [Nat.add_zero] at hm hne
    have hrec := ih (attempt + 1) left' (by omega) (fun j hj => by
      have h := hprev (j + 1) (by omega)
      rw [show attempt + (j + 1) = attempt + 1 + j by omega] at h
      exact h)
    rw [retryGo_retry left' hm hnet hne, hrec]
    have ha : attempt + 1 + d = attempt + (d + 1) := by omega
    have hl : left' - d = left' + 1 - (d + 1) := by omega
    rw [ha, hl]
    simp only [RetryResult.mk.injEq, true_and, and_true]
    refine ⟨by omega, ?_⟩
    conv_rhs => rw [expWaits]
    rw [List.append_assoc]

theorem retryGo2_succ (sender : Nat → SendOutcome) (maxRetries attempt left : Nat) :
    retryGo2 sender maxRetries attempt (left + 1) =
      match sender attempt with
      | .ok => ⟨true, 1, preWaits attempt, none⟩
      | .err msg =>
        if isNetworkError2 msg = true ∧ attempt ≠ maxRetries then
          ⟨(retryGo2 sender maxRetries (attempt + 1) left).success,
            1 + (retryGo2 sender maxRetries (attempt + 1) left).invocations,
            preWaits attempt ++ sslWaits msg attempt ++
              (retryGo2 sender maxRetries (attempt + 1) left).waits,
            (retryGo2 sender maxRetries (attempt + 1) left).errMsg⟩
        else
          ⟨false, 1, preWaits attempt, some msg⟩ := rfl

theorem retryGo2_retry {sender : Nat → SendOutcome} {attempt : Nat} {msg : String}
    {maxRetries : Nat} (left : Nat) (h : sender attempt = .err msg)
    (hn : isNetworkError2 msg = true) (hne : attempt ≠ maxRetries) :
    retryGo2 sender maxRetries attempt (left + 1) =
      ⟨(retryGo2 sender maxRetries (attempt + 1) left).success,
        1 + (retryGo2 sender maxRetries (attempt + 1) left).invocations,
        preWaits attempt ++ sslWaits msg attempt ++
          (retryGo2 sender maxRetries (attempt + 1) left).waits,
        (retryGo2 sender maxRetries (attempt + 1) left).errMsg⟩ := by
  simp only [retryGo2_succ, h]
  rw [if_pos ⟨hn, hne⟩]

theorem isNetworkError2_of_network {msg : String} (h : isNetworkError msg = true) :
    isNetworkError2 msg = true := by
  simp [isNetworkError2, h]

theorem isNetworkError2_of_tls {msg : String} (h : isTlsError msg = true) :
    isNetworkError2 msg = true := by
  simp [isNetworkError2, h]

/-- The variant's skip lemma, over a block of retryable failures that are
network-class but not TLS-class (so that no extra linear delay is taken). -/
theorem retryGo2_skip (sender : Nat → SendOutcome) (maxRetries : Nat) :
    ∀ (d attempt left : Nat), d ≤ left →
      (∀ j, j < d →
        (∃ m, sender (attempt + j) = .err m ∧ isNetworkError m = true ∧
            isTlsError m = false) ∧
          attempt + j ≠ maxRetries) →
      retryGo2 sender maxRetries attempt left =
        ⟨(retryGo2 sender maxRetries (attempt + d) (left - d)).success,
          d + (retryGo2 sender maxRetries (attempt + d) (left - d)).invocations,
          expWaits attempt d ++
            (retryGo2 sender maxRetries (attempt + d) (left - d)).waits,
          (retryGo2 sender maxRetries (attempt + d) (left - d)).errMsg⟩ := by
  intro d
  induction d with
  | zero =>
    intro attempt left _ _
    simp [expWaits]
  | succ d ih =>
    intro attempt left hle hprev
    obtain ⟨left', rfl⟩ : ∃ l, left = l + 1 := ⟨left - 1, by omega⟩
    obtain ⟨⟨m, hm, hnet, htls⟩, hne⟩ := hprev 0 (Nat.succ_pos d)
    rw [Nat.add_zero] at hm hne
    have hrec := ih (attempt + 1) left' (by omega) (fun j hj => by
      have h := hprev (j + 1) (by omega)
      rw [show attempt + (j + 1) = attempt + 1 + j by omega] at h
      exact h)
    rw [retryGo2_retry left' hm (isNetworkError2_of_network hnet) hne, hrec]
    have hssl : sslWaits m attempt = [] := by simp [sslWaits, htls]
    have ha : attempt + 1 + d = attempt + (d + 1) := by omega
    have hl : left' - d = left' + 1 - (d + 1) := by omega
    rw [hssl, ha, hl]
    simp only [RetryResult.mk.injEq, true_and, and_true, List.nil_append]
    refine ⟨by omega, ?_⟩
    simp [expWaits, List.append_assoc]

theorem retryGo_inv_pos (sender : Nat → SendOutcome) (maxRetries attempt left : Nat)
    (h : 1 ≤ left) : 1 ≤ (retryGo sender maxRetries attempt left).invocations := by
  obtain ⟨l, rfl⟩ : ∃ l, left = l + 1 := ⟨left - 1, by omega⟩
  cases hs : sender attempt with
  | ok => rw [retryGo_ok maxRetries l hs]
  | err msg =>
    by_cases hc : isNetworkError msg = true ∧ attempt ≠ maxRetries
    · rw [retryGo_retry l hs hc.1 hc.2]
      show 1 ≤ 1 + (retryGo sender maxRetries (attempt + 1) l).invocations
      omega
    · rw [retryGo_fatal l hs hc]

theorem retryGo_inv_le (sender : Nat → SendOutcome) (maxRetries : Nat) :
    ∀ (left attempt : Nat),
      (retryGo sender maxRetries attempt left).invocations ≤ left := by
  intro left
  induction left with
  | zero => intro attempt; exact Nat.le.refl
  | succ l ih =>
    intro attempt
    cases hs : sender attempt with
    | ok => rw [retryGo_ok maxRetries l hs]; exact Nat.le_add_left 1 l
    | err msg =>
      by_cases hc : isNetworkError msg = true ∧ attempt ≠ maxRetries
      · rw [retryGo_retry l hs hc.1 hc.2]
        show 1 + (retryGo sender maxRetries (attempt + 1) l).invocations ≤ l + 1
        have := ih (attempt + 1)
        omega
      · rw [retryGo_fatal l hs hc]; exact Nat.le_add_left 1 l

/-- Every wait of a retry run is an exponential-backoff delay of an attempt
at least as late as the current one, and the waits (with the 10000 ms cap
appended) form a non-decreasing chain. -/
theorem retryGo_waits_chain (sender : Nat → SendOutcome) (maxRetries : Nat) :
    ∀ (left attempt : Nat),
      List.Chain' (fun a b => a ≤ b)
          ((retryGo sender maxRetries attempt left).waits ++ [10000]) ∧
        ∀ x ∈ (retryGo sender maxRetries attempt left).waits,
          expDelay attempt ≤ x := by
  intro left
  induction left with
  | zero =>
    intro attempt
    constructor
    · exact List.chain'_singleton 10000
    · intro x hx
      simp [retryGo] at hx
  | succ l ih =>
    intro attempt
    have hpre : ∀ x ∈ preWaits attempt, expDelay attempt ≤ x := by
      intro x hx
      unfold preWaits at hx
      by_cases h1 : 1 < attempt
      · rw [if_pos h1] at hx
        rw [List.mem_singleton] at hx
        exact hx ▸ Nat.le.refl
      · rw [if_neg h1] at hx
        exact absurd hx (List.not_mem_nil x)
    have hchain1 : List.Chain' (fun a b => a ≤ b) (preWaits attempt ++ [10000]) := by
      unfold preWaits
      by_cases h1 : 1 < attempt
      · rw [if_pos h1]
        exact List.chain'_cons.mpr ⟨expDelay_le_cap attempt, List.chain'_singleton _⟩
      · rw [if_neg h1]
        exact List.chain'_singleton 10000
    cases hs : sender attempt with
    | ok =>
      rw [retryGo_ok maxRetries l hs]
      exact ⟨hchain1, hpre⟩
    | err msg =>
      by_cases hc : isNetworkError msg = true ∧ attempt ≠ maxRetries
      · rw [retryGo_retry l hs hc.1 hc.2]
        obtain ⟨ihc, ihb⟩ := ih (attempt + 1)
        constructor
        · show List.Chain' (fun a b => a ≤ b)
            ((preWaits attempt ++ (retryGo sender maxRetries (attempt + 1) l).waits)
              ++ [10000])
          rw [List.append_assoc]
          apply List.chain'_append.mpr
          refine ⟨?_, ihc, ?_⟩
          · unfold preWaits
            by_cases h1 : 1 < attempt
            · rw [if_pos h1]; exact List.chain'_singleton _
            · rw [if_neg h1]; exact List.chain'_nil
          · intro x hx y hy
            have hxe : x = expDelay attempt := by
              unfold preWaits at hx
              by_cases h1 : 1 < attempt
              · rw [if_pos h1] at hx; simp at hx; exact hx.symm
              · rw [if_neg h1] at hx; simp at hx
            subst hxe
            cases hw2 : (retryGo sender maxRetries (attempt + 1) l).waits with
            | nil =>
              rw [hw2] at hy
              simp at hy
              subst hy
              exact expDelay_le_cap attempt
            | cons w t =>
              rw [hw2] at hy
              simp at hy
              subst hy
              have hwb : expDelay (attempt + 1) ≤ w := by
                apply ihb
                rw [hw2]
                exact List.mem_cons_self w t
              exact Nat.le_trans (expDelay_mono (Nat.le_succ attempt)) hwb
        · show ∀ x ∈ preWaits attempt ++
              (retryGo sender maxRetries (attempt + 1) l).waits,
            expDelay attempt ≤ x
          intro x hx
          rw [List.mem_append] at hx
          rcases hx with hx | hx
          · exact hpre x hx
          · exact Nat.le_trans (expDelay_mono (Nat.le_succ attempt)) (ihb x hx)
      · rw [retryGo_fatal l hs hc]
        exact ⟨hchain1, hpre⟩

/-! ## Lemmas about the registration store and the handler -/

theorem findReg_updateFirst (emailS : String) (f : Registration → Registration)
    (hf : ∀ r, (f r).email = r.email) :
    ∀ store : List Registration,
      findReg (updateFirst store emailS f) emailS =
        (findReg store emailS).map f := by
  intro store
  induction store with
  | nil => rfl
  | cons r rest ih =>
    by_cases h : r.email = emailS
    · have hb : (r.email == emailS) = true := beq_iff_eq.mpr h
      have hb' : ((f r).email == emailS) = true := beq_iff_eq.mpr (by rw [hf r, h])
      simp [updateFirst, findReg, hb, List.find?_cons_of_pos, hb']
    · have hb : (r.email == emailS) = false :=
        beq_eq_false_iff_ne.mpr h
      simp only [updateFirst, hb, if_false, Bool.false_eq_true]
      simp only [findReg] at ih ⊢
      rw [List.find?_cons_of_neg _ (by simp [hb]),
        List.find?_cons_of_neg _ (by simp [hb])]
      exact ih

theorem findReg_append_of_none (emailS : String) (r : Registration)
    (hr : r.email = emailS) :
    ∀ store : List Registration, findReg store emailS = none →
      findReg (store ++ [r]) emailS = some r := by
  intro store
  induction store with
  | nil =>
    intro _
    simp [findReg, List.find?_cons_of_pos, beq_iff_eq.mpr hr]
  | cons a rest ih =>
    intro h
    cases hb : (a.email == emailS) with
    | true =>
      simp only [findReg, List.find?, hb] at h
      exact absurd h (by simp)
    | false =>
      simp only [findReg, List.find?, hb] at h
      simp only [findReg, List.cons_append, List.find?, hb]
      exact ih h

theorem recAttempts_some {store : List Registration} {emailS : String}
    {r : Registration} (h : findReg store emailS = some r) :
    recAttempts store emailS = r.emailAttempts := by
  simp [recAttempts, h]

theorem recAttempts_none {store : List Registration} {emailS : String}
    (h : findReg store emailS = none) : recAttempts store emailS = 0 := by
  simp [recAttempts, h]

theorem markSent_email (r : Registration) : (markSent r).email = r.email := rfl

theorem markFailed_email (msg : String) (r : Registration) :
    (markFailed msg r).email = r.email := rfl

theorem dispatch_invalid {name email course : Option String}
    (store : List Registration) (sender : Nat → SendOutcome) (w1 w2 : Bool)
    (m : String) (h : (falsy name || falsy email || falsy course) = true) :
    dispatch store name email course sender w1 w2 m =
      ⟨.badRequest, 400, false, store, 0⟩ := by
  simp [dispatch, h]

theorem dispatch_alreadySent {name course : Option String} {e : String}
    {store : List Registration} {r : Registration}
    (sender : Nat → SendOutcome) (w1 w2 : Bool) (m : String)
    (hv : (falsy name || falsy (some e) || falsy course) = false)
    (hfind : findReg store e = some r)
    (hsent : r.confirmationEmailSent = true) :
    dispatch store name (some e) course sender w1 w2 m =
      ⟨.alreadySent, 200, true, store, 0⟩ := by
  simp [dispatch, hv, hfind, hsent]

theorem dispatch_rateLimited {name course : Option String} {e : String}
    {store : List Registration} {r : Registration}
    (sender : Nat → SendOutcome) (w1 w2 : Bool) (m : String)
    (hv : (falsy name || falsy (some e) || falsy course) = false)
    (hfind : findReg store e = some r)
    (hns : r.confirmationEmailSent = false)
    (h3 : 3 ≤ r.emailAttempts) :
    dispatch store name (some e) course sender w1 w2 m =
      ⟨.rateLimited, 429, false, store, 0⟩ := by
  have h0 : r.emailAttempts ≠ 0 := by omega
  simp [dispatch, hv, hfind, hns, h0, h3]

theorem dispatch_send_found {name course : Option String} {e : String}
    {store : List Registration} {r : Registration}
    (sender : Nat → SendOutcome) (w1 w2 : Bool) (m : String)
    (hv : (falsy name || falsy (some e) || falsy course) = false)
    (hfind : findReg store e = some r)
    (hns : r.confirmationEmailSent = false)
    (hlt : ¬(r.emailAttempts ≠ 0 ∧ 3 ≤ r.emailAttempts)) :
    dispatch store name (some e) course sender w1 w2 m =
      afterSend store e (name.getD "") (course.getD "") (some r)
        (sendEmailWithRetry sender 3) w1 w2 m := by
  simp [dispatch, hv, hfind, hns, hlt]

theorem dispatch_send_absent {name course : Option String} {e : String}
    {store : List Registration}
    (sender : Nat → SendOutcome) (w1 w2 : Bool) (m : String)
    (hv : (falsy name || falsy (some e) || falsy course) = false)
    (hfind : findReg store e = none) :
    dispatch store name (some e) course sender w1 w2 m =
      afterSend store e (name.getD "") (course.getD "") none
        (sendEmailWithRetry sender 3) w1 w2 m := by
  simp [dispatch, hv, hfind]

theorem afterSend_senderCalls (store : List Registration)
    (emailS nameS courseS : String) (found : Option Registration)
    (res : RetryResult) (w1 w2 : Bool) (m : String) :
    (afterSend store emailS nameS courseS found res w1 w2 m).senderCalls =
      res.invocations := by
  cases found <;> cases hs : res.success <;> cases w1 <;> cases w2 <;>
    simp [afterSend, hs]

/-- Exhaustive description of how one handler run can change the store:
it is unchanged, or the first record with the request's email (existing,
not delivered, under the attempt ceiling) is updated by `markSent` or
`markFailed`, or (no record) the new record is appended. -/
theorem dispatch_store_cases (store : List Registration) (n c : Option String)
    (e : String) (sender : Nat → SendOutcome) (w1 w2 : Bool) (m : String) :
    (dispatch store n (some e) c sender w1 w2 m).store = store ∨
      (∃ r, findReg store e = some r ∧ r.confirmationEmailSent = false ∧
        ¬(r.emailAttempts ≠ 0 ∧ 3 ≤ r.emailAttempts) ∧
        ((dispatch store n (some e) c sender w1 w2 m).store =
            updateFirst store e markSent ∨
          ∃ msg, (dispatch store n (some e) c sender w1 w2 m).store =
            updateFirst store e (markFailed msg))) ∨
      (findReg store e = none ∧
        (dispatch store n (some e) c sender w1 w2 m).store =
          store ++ [newRegistration e (n.getD "") (c.getD "")]) := by
  by_cases hv : (falsy n || falsy (some e) || falsy c) = true
  · left
    rw [dispatch_invalid store sender w1 w2 m hv]
  · have hv' : (falsy n || falsy (some e) || falsy c) = false := by
      revert hv
      cases (falsy n || falsy (some e) || falsy c) <;> simp
    cases hfind : findReg store e with
    | none =>
      rw [dispatch_send_absent sender w1 w2 m hv' hfind]
      cases hs : (sendEmailWithRetry sender 3).success with
      | false => left; simp [afterSend, hs]
      | true =>
        cases w1 with
        | false => left; simp [afterSend, hs]
        | true =>
          right; right
          exact ⟨rfl, by simp [afterSend, hs]⟩
    | some r =>
      by_cases hsent : r.confirmationEmailSent = true
      · left
        rw [dispatch_alreadySent sender w1 w2 m hv' hfind hsent]
      · have hns : r.confirmationEmailSent = false := by
          revert hsent
          cases r.confirmationEmailSent <;> simp
        by_cases hge : r.emailAttempts ≠ 0 ∧ 3 ≤ r.emailAttempts
        · left
          rw [dispatch_rateLimited sender w1 w2 m hv' hfind hns hge.2]
        · rw [dispatch_send_found sender w1 w2 m hv' hfind hns hge]
          cases hs : (sendEmailWithRetry sender 3).success with
          | true =>
            cases w1 with
            | true =>
              right; left
              exact ⟨r, rfl, hns, hge, Or.inl (by simp [afterSend, hs])⟩
            | false =>
              cases w2 with
              | true =>
                right; left
                exact ⟨r, rfl, hns, hge, Or.inr ⟨m, by simp [afterSend, hs]⟩⟩
              | false => left; simp [afterSend, hs]
          | false =>
            cases w2 with
            | true =>
              right; left
              refine ⟨r, rfl, hns, hge,
                Or.inr ⟨(sendEmailWithRetry sender 3).errMsg.getD "", ?_⟩⟩
              simp [afterSend, hs]
            | false => left; simp [afterSend, hs]

theorem recAttempts_updateFirst {store : List Registration} {e : String}
    {r : Registration} (f : Registration → Registration)
    (hf : ∀ s, (f s).email = s.email) (hfind : findReg store e = some r) :
    recAttempts (updateFirst store e f) e = (f r).emailAttempts := by
  have h := findReg_updateFirst e f hf store
  rw [hfind] at h
  simp [recAttempts, h]

/-- One handler run never decreases the stored `emailAttempts` counter of the
request's email. -/
theorem recAttempts_mono (store : List Registration) (n c : Option String)
    (e : String) (sender : Nat → SendOutcome) (w1 w2 : Bool) (m : String) :
    recAttempts store e ≤
      recAttempts (dispatch store n (some e) c sender w1 w2 m).store e := by
  rcases dispatch_store_cases store n c e sender w1 w2 m with
    h | ⟨r, hfind, _, _, hupd | ⟨msg, hupd⟩⟩ | ⟨hfind, hupd⟩
  · rw [h]
  · rw [hupd, recAttempts_updateFirst markSent (fun _ => rfl) hfind,
      recAttempts_some hfind]
    exact Nat.le_succ _
  · rw [hupd, recAttempts_updateFirst (markFailed msg) (fun _ => rfl) hfind,
      recAttempts_some hfind]
    exact Nat.le_succ _
  · rw [recAttempts_none hfind]
    exact Nat.zero_le _

/-- One handler run keeps the stored `emailAttempts` counter of the request's
email at or below `max` of its old value and the ceiling 3. -/
theorem recAttempts_bound (store : List Registration) (n c : Option String)
    (e : String) (sender : Nat → SendOutcome) (w1 w2 : Bool) (m : String) :
    recAttempts (dispatch store n (some e) c sender w1 w2 m).store e ≤
      max (recAttempts store e) 3 := by
  rcases dispatch_store_cases store n c e sender w1 w2 m with
    h | ⟨r, hfind, _, hge, hupd | ⟨msg, hupd⟩⟩ | ⟨hfind, hupd⟩
  · rw [h]
    exact Nat.le_max_left _ 3
  · rw [hupd, recAttempts_updateFirst markSent (fun _ => rfl) hfind]
    have h3 : (markSent r).emailAttempts ≤ 3 := by
      show r.emailAttempts + 1 ≤ 3
      omega
    exact Nat.le_trans h3 (Nat.le_max_right _ 3)
  · rw [hupd, recAttempts_updateFirst (markFailed msg) (fun _ => rfl) hfind]
    have h3 : (markFailed msg r).emailAttempts ≤ 3 := by
      show r.emailAttempts + 1 ≤ 3
      omega
    exact Nat.le_trans h3 (Nat.le_max_right _ 3)
  · rw [hupd]
    have hnew := findReg_append_of_none e
      (newRegistration e (n.getD "") (c.getD "")) rfl store hfind
    rw [recAttempts_some hnew]
    exact Nat.le_trans (show (1:Nat) ≤ 3 by omega) (Nat.le_max_right _ 3)

/-- Over any sequence of handler runs for one email, the stored counter is
monotone and stays at or below `max` of its initial value and 3. -/
theorem dispatchSeq_attempts (n c : Option String) (e : String) (m : String) :
    ∀ (calls : List ((Nat → SendOutcome) × Bool × Bool))
      (store : List Registration),
      recAttempts store e ≤
          recAttempts (dispatchSeq n (some e) c m store calls) e ∧
        recAttempts (dispatchSeq n (some e) c m store calls) e ≤
          max (recAttempts store e) 3 := by
  intro calls
  induction calls with
  | nil =>
    intro store
    exact ⟨Nat.le.refl, Nat.le_max_left _ 3⟩
  | cons call rest ih =>
    intro store
    obtain ⟨sender, w1, w2⟩ := call
    obtain ⟨ihm, ihb⟩ :=
      ih (dispatch store n (some e) c sender w1 w2 m).store
    constructor
    · exact Nat.le_trans (recAttempts_mono store n c e sender w1 w2 m) ihm
    · apply Nat.le_trans ihb
      apply Nat.max_le.mpr
      exact ⟨recAttempts_bound store n c e sender w1 w2 m, Nat.le_max_right _ 3⟩

/-! ## Concrete inputs used by witnesses and counterexamples -/

/-- A provider that always acknowledges. -/
def okSender : Nat → SendOutcome := fun _ => .ok

/-- A provider that always reports a validation-type error (its message
matches none of the network patterns). -/
def fatalSender : Nat → SendOutcome := fun _ => .err "Invalid recipient address"

/-- A provider that times out on the first two attempts and then succeeds. -/
def netTwiceSender : Nat → SendOutcome :=
  fun a => if a ≤ 2 then .err "ETIMEDOUT" else .ok

/-- A provider that times out on the first attempt and then succeeds. -/
def netOnceSender : Nat → SendOutcome :=
  fun a => if a = 1 then .err "request timeout" else .ok

/-- A provider that fails with a TLS/handshake-class error on the first
attempt and then succeeds. -/
def tlsOnceSender : Nat → SendOutcome :=
  fun a => if a = 1 then .err "DECODER routines::unsupported" else .ok

/-- A store holding one record whose confirmation email was already sent. -/
def storeDelivered : List Registration :=
  [⟨"a@x.com", "A", "web", true, 1, none⟩]

/-- A store holding one undelivered record at the attempt ceiling. -/
def storeLimited : List Registration :=
  [⟨"a@x.com", "A", "web", false, 3, none⟩]

/-- A store holding one undelivered record with no recorded attempts. -/
def storePending : List Registration :=
  [⟨"a@x.com", "A", "web", false, 0, none⟩]

/-! ## The claims -/

/-- C8: a request with a missing (or empty, which JavaScript also treats as
falsy) `name`, `email` or `course` field is rejected with HTTP 400 before the
store is read or written and before any send: the result carries the store
unchanged and zero provider invocations. -/
theorem claim_C8_validation_fails_fast (store : List Registration)
    (name email course : Option String) (sender : Nat → SendOutcome)
    (w1 w2 : Bool) (m : String)
    (h : (falsy name || falsy email || falsy course) = true) :
    dispatch store name email course sender w1 w2 m =
      ⟨.badRequest, 400, false, store, 0⟩ :=
  dispatch_invalid store sender w1 w2 m h

/-- Witness for C8 at a concrete input: a request with no `name`. -/
theorem claim_C8_witness :
    dispatch storePending none (some "a@x.com") (some "web") okSender true true
        "m" =
      ⟨.badRequest, 400, false, storePending, 0⟩ :=
  claim_C8_validation_fails_fast storePending none (some "a@x.com")
    (some "web") okSender true true "m" (by decide)

/-- After a handler run that reported `sent`, the store holds a delivered
record for the request's email. -/
theorem dispatch_sent_store {store : List Registration} {n c : Option String}
    {e : String} {sender : Nat → SendOutcome} {w1 w2 : Bool} {m : String}
    (h : (dispatch store n (some e) c sender w1 w2 m).status = .sent) :
    ∃ r', findReg (dispatch store n (some e) c sender w1 w2 m).store e =
        some r' ∧ r'.confirmationEmailSent = true := by
  by_cases hv : (falsy n || falsy (some e) || falsy c) = true
  · rw [dispatch_invalid store sender w1 w2 m hv] at h
    exact absurd h (by simp)
  · have hv' : (falsy n || falsy (some e) || falsy c) = false := by
      revert hv
      cases (falsy n || falsy (some e) || falsy c) <;> simp
    cases hfind : findReg store e with
    | none =>
      rw [dispatch_send_absent sender w1 w2 m hv' hfind] at h ⊢
      cases hs : (sendEmailWithRetry sender 3).success with
      | false => simp [afterSend, hs] at h
      | true =>
        cases w1 with
        | false => simp [afterSend, hs] at h
        | true =>
          refine ⟨newRegistration e (n.getD "") (c.getD ""), ?_, rfl⟩
          simp only [afterSend, hs, if_true]
          exact findReg_append_of_none e _ rfl store hfind
    | some r =>
      by_cases hsent : r.confirmationEmailSent = true
      · rw [dispatch_alreadySent sender w1 w2 m hv' hfind hsent] at h
        exact absurd h (by simp)
      · have hns : r.confirmationEmailSent = false := by
          revert hsent
          cases r.confirmationEmailSent <;> simp
        by_cases hge : r.emailAttempts ≠ 0 ∧ 3 ≤ r.emailAttempts
        · rw [dispatch_rateLimited sender w1 w2 m hv' hfind hns hge.2] at h
          exact absurd h (by simp)
        · rw [dispatch_send_found sender w1 w2 m hv' hfind hns hge] at h ⊢
          cases hs : (sendEmailWithRetry sender 3).success with
          | false =>
            cases w2 with
            | false => simp [afterSend, hs] at h
            | true => simp [afterSend, hs] at h
          | true =>
            cases w1 with
            | false =>
              cases w2 with
              | false => simp [afterSend, hs] at h
              | true => simp [afterSend, hs] at h
            | true =>
              refine ⟨markSent r, ?_, rfl⟩
              simp only [afterSend, hs, if_true]
              have hu := findReg_updateFirst e markSent (fun _ => rfl) store
              rw [hfind] at hu
              exact hu

/-- C1: a record whose `confirmationEmailSent` flag is set makes the handler
return success flagged `alreadySent: true` (HTTP 200) with the store
unchanged and zero provider invocations; and after any handler run that
reported `sent`, a second run for the same email again returns that
already-sent outcome with no additional send. -/
theorem claim_C1_idempotent_already_sent
    (store store2 : List Registration) (n c : Option String) (e : String)
    (sender sender0 sender2 : Nat → SendOutcome) (w1 w2 w1b w2b : Bool)
    (m m0 m2 : String) (r : Registration)
    (hv : (falsy n || falsy (some e) || falsy c) = false)
    (hfind : findReg store e = some r)
    (hsent : r.confirmationEmailSent = true)
    (hfirst : (dispatch store2 n (some e) c sender0 true true m0).status = .sent) :
    dispatch store n (some e) c sender w1 w2 m =
        ⟨.alreadySent, 200, true, store, 0⟩ ∧
      dispatch (dispatch store2 n (some e) c sender0 true true m0).store n
          (some e) c sender2 w1b w2b m2 =
        ⟨.alreadySent, 200, true,
          (dispatch store2 n (some e) c sender0 true true m0).store, 0⟩ := by
  constructor
  · exact dispatch_alreadySent sender w1 w2 m hv hfind hsent
  · obtain ⟨r', hfind', hsent'⟩ := dispatch_sent_store hfirst
    exact dispatch_alreadySent sender2 w1b w2b m2 hv hfind' hsent'

/-- Witness for C1: a delivered record, and a first successful run on an
empty store followed by a second run. -/
theorem claim_C1_witness :
    dispatch storeDelivered (some "A") (some "a@x.com") (some "web") okSender
        true true "m" =
      ⟨.alreadySent, 200, true, storeDelivered, 0⟩ ∧
    dispatch
        (dispatch [] (some "A") (some "a@x.com") (some "web") okSender true
          true "m").store
        (some "A") (some "a@x.com") (some "web") okSender true true "m" =
      ⟨.alreadySent, 200, true,
        (dispatch [] (some "A") (some "a@x.com") (some "web") okSender true
          true "m").store, 0⟩ :=
  claim_C1_idempotent_already_sent storeDelivered [] (some "A") (some "web")
    "a@x.com" okSender okSender okSender true true true true "m" "m" "m"
    ⟨"a@x.com", "A", "web", true, 1, none⟩ (by decide) (by decide) (by decide)
    (by decide)

/-- C2: the stored `emailAttempts` counter for an email never decreases under
a handler run, and never exceeds `max` of its previous value and the ceiling
3 (so starting at or below 3 it stays at or below 3), both for a single run
and along any sequence of runs; and once an undelivered record has
`emailAttempts ≥ 3`, a run returns the rate-limited outcome (HTTP 429) with
the store unchanged and zero provider invocations. -/
theorem claim_C2_attempts_invariant
    (store storeR : List Registration) (n c : Option String) (e m : String)
    (sender : Nat → SendOutcome) (w1 w2 : Bool)
    (calls : List ((Nat → SendOutcome) × Bool × Bool)) (rR : Registration)
    (hv : (falsy n || falsy (some e) || falsy c) = false)
    (hfindR : findReg storeR e = some rR)
    (hnd : rR.confirmationEmailSent = false)
    (h3 : 3 ≤ rR.emailAttempts) :
    recAttempts store e ≤
        recAttempts (dispatch store n (some e) c sender w1 w2 m).store e ∧
      recAttempts (dispatch store n (some e) c sender w1 w2 m).store e ≤
        max (recAttempts store e) 3 ∧
      recAttempts store e ≤
        recAttempts (dispatchSeq n (some e) c m store calls) e ∧
      recAttempts (dispatchSeq n (some e) c m store calls) e ≤
        max (recAttempts store e) 3 ∧
      dispatch storeR n (some e) c sender w1 w2 m =
        ⟨.rateLimited, 429, false, storeR, 0⟩ :=
  ⟨recAttempts_mono store n c e sender w1 w2 m,
    recAttempts_bound store n c e sender w1 w2 m,
    (dispatchSeq_attempts n c e m calls store).1,
    (dispatchSeq_attempts n c e m calls store).2,
    dispatch_rateLimited sender w1 w2 m hv hfindR hnd h3⟩

/-- Witness for C2: an always-failing provider on an empty store, one
follow-up call, and a rate-limited record at the ceiling. -/
theorem claim_C2_witness :
    recAttempts [] "a@x.com" ≤
        recAttempts
          (dispatch [] (some "A") (some "a@x.com") (some "web") fatalSender
            true true "m").store "a@x.com" ∧
      recAttempts
          (dispatch [] (some "A") (some "a@x.com") (some "web") fatalSender
            true true "m").store "a@x.com" ≤
        max (recAttempts [] "a@x.com") 3 ∧
      recAttempts [] "a@x.com" ≤
        recAttempts
          (dispatchSeq (some "A") (some "a@x.com") (some "web") "m" []
            [(okSender, true, true)]) "a@x.com" ∧
      recAttempts
          (dispatchSeq (some "A") (some "a@x.com") (some "web") "m" []
            [(okSender, true, true)]) "a@x.com" ≤
        max (recAttempts [] "a@x.com") 3 ∧
      dispatch storeLimited (some "A") (some "a@x.com") (some "web")
          fatalSender true true "m" =
        ⟨.rateLimited, 429, false, storeLimited, 0⟩ :=
  claim_C2_attempts_invariant [] storeLimited (some "A") (some "web")
    "a@x.com" "m" fatalSender true true [(okSender, true, true)]
    ⟨"a@x.com", "A", "web", false, 3, none⟩ (by decide) (by decide) (by decide)
    (by decide)

/-- C3 counterexample: for a previously-unseen email, a dispatch whose send
fails (validation-type provider error) returns HTTP 500 but writes **no**
record at all — the failure-path update only runs when the lookup had found a
document — contradicting the claim that a record with `attempts ≥ 1` exists
afterwards whether the send succeeded or failed. -/
theorem claim_C3_counterexample :
    (dispatch [] (some "B") (some "b@x.com") (some "web") fatalSender true
        true "m").httpCode = 500 ∧
      findReg
        (dispatch [] (some "B") (some "b@x.com") (some "web") fatalSender true
          true "m").store "b@x.com" = none := by
  decide

/-- C3 as amended: for a previously-unseen email (with store writes
succeeding), a dispatch performs exactly one logical send — between 1 and 3
provider invocations of a single `sendEmailWithRetry` run — and afterwards,
if the send succeeded, the store holds the new record (`delivered = true`,
`attempts = 1`), while if it failed the store is unchanged: no record is
written for the unseen key. -/
theorem claim_C3_first_dispatch (store : List Registration)
    (n c : Option String) (e : String) (sender : Nat → SendOutcome)
    (m : String)
    (hv : (falsy n || falsy (some e) || falsy c) = false)
    (hfind : findReg store e = none) :
    (dispatch store n (some e) c sender true true m).senderCalls =
        (sendEmailWithRetry sender 3).invocations ∧
      1 ≤ (dispatch store n (some e) c sender true true m).senderCalls ∧
      (dispatch store n (some e) c sender true true m).senderCalls ≤ 3 ∧
      (dispatch store n (some e) c sender true true m).store =
        (if (sendEmailWithRetry sender 3).success = true then
          store ++ [newRegistration e (n.getD "") (c.getD "")]
        else store) ∧
      (dispatch store n (some e) c sender true true m).status =
        (if (sendEmailWithRetry sender 3).success = true then
          DispatchStatus.sent
        else DispatchStatus.serverError) := by
  rw [dispatch_send_absent sender true true m hv hfind]
  have hcalls := afterSend_senderCalls store e (n.getD "") (c.getD "") none
    (sendEmailWithRetry sender 3) true true m
  have hpos : 1 ≤ (sendEmailWithRetry sender 3).invocations :=
    retryGo_inv_pos sender 3 1 3 (by omega)
  have hle : (sendEmailWithRetry sender 3).invocations ≤ 3 :=
    retryGo_inv_le sender 3 3 1
  refine ⟨hcalls, by rw [hcalls]; exact hpos, by rw [hcalls]; exact hle,
    ?_, ?_⟩
  · cases hsucc : (sendEmailWithRetry sender 3).success with
    | true => simp [afterSend, hsucc]
    | false => simp [afterSend, hsucc]
  · cases hsucc : (sendEmailWithRetry sender 3).success with
    | true => simp [afterSend, hsucc]
    | false => simp [afterSend, hsucc]

/-- Witness for the amended C3: unseen email, provider succeeding on the
third attempt. -/
theorem claim_C3_witness :
    (dispatch [] (some "A") (some "a@x.com") (some "web") netTwiceSender true
          true "m").senderCalls =
        (sendEmailWithRetry netTwiceSender 3).invocations ∧
      1 ≤ (dispatch [] (some "A") (some "a@x.com") (some "web") netTwiceSender
          true true "m").senderCalls ∧
      (dispatch [] (some "A") (some "a@x.com") (some "web") netTwiceSender
          true true "m").senderCalls ≤ 3 ∧
      (dispatch [] (some "A") (some "a@x.com") (some "web") netTwiceSender
          true true "m").store =
        (if (sendEmailWithRetry netTwiceSender 3).success = true then
          [] ++ [newRegistration "a@x.com" ((some "A").getD "")
            ((some "web").getD "")]
        else []) ∧
      (dispatch [] (some "A") (some "a@x.com") (some "web") netTwiceSender
          true true "m").status =
        (if (sendEmailWithRetry netTwiceSender 3).success = true then
          DispatchStatus.sent
        else DispatchStatus.serverError) :=
  claim_C3_first_dispatch [] (some "A") (some "web") "a@x.com" netTwiceSender
    "m" (by decide) (by decide)

/-- C4: in a run whose first `k - 1` attempts failed with network-classified
errors, if attempt `k` fails too then: when its message matches a network
pattern and attempts remain, the provider is invoked again (at least `k + 1`
invocations in total); with any other message (or with no attempts left) the
run aborts after exactly `k` invocations, unsuccessfully, surfacing that
message — in particular a validation-type provider error on the first
attempt yields exactly one invocation. -/
theorem claim_C4_fatal_aborts (sender : Nat → SendOutcome)
    (maxRetries k : Nat) (msg : String) (hk1 : 1 ≤ k) (hkm : k ≤ maxRetries)
    (hprior : ∀ j, 1 ≤ j → j < k →
      ∃ mj, sender j = .err mj ∧ isNetworkError mj = true)
    (hk : sender k = .err msg) :
    if isNetworkError msg = true ∧ k < maxRetries then
      k + 1 ≤ (sendEmailWithRetry sender maxRetries).invocations
    else
      (sendEmailWithRetry sender maxRetries).invocations = k ∧
        (sendEmailWithRetry sender maxRetries).success = false ∧
        (sendEmailWithRetry sender maxRetries).errMsg = some msg := by
  by_cases hc : isNetworkError msg = true ∧ k < maxRetries
  · rw [if_pos hc]
    have hskip := retryGo_skip sender maxRetries k 1 maxRetries (by omega)
      (fun j hj => by
        rcases Nat.lt_or_ge j (k - 1) with hjlt | hjge
        · obtain ⟨mj, hmj, hnj⟩ := hprior (1 + j) (by omega) (by omega)
          exact ⟨⟨mj, hmj, hnj⟩, by omega⟩
        · have hjk : j = k - 1 := by omega
          subst hjk
          rw [show 1 + (k - 1) = k by omega]
          exact ⟨⟨msg, hk, hc.1⟩, by omega⟩)
    show k + 1 ≤ (retryGo sender maxRetries 1 maxRetries).invocations
    rw [hskip]
    have hpos := retryGo_inv_pos sender maxRetries (1 + k) (maxRetries - k)
      (by omega)
    show k + 1 ≤ k +
      (retryGo sender maxRetries (1 + k) (maxRetries - k)).invocations
    omega
  · rw [if_neg hc]
    have hskip := retryGo_skip sender maxRetries (k - 1) 1 maxRetries
      (by omega)
      (fun j hj => by
        obtain ⟨mj, hmj, hnj⟩ := hprior (1 + j) (by omega) (by omega)
        exact ⟨⟨mj, hmj, hnj⟩, by omega⟩)
    rw [show 1 + (k - 1) = k from by omega] at hskip
    obtain ⟨l, hl⟩ : ∃ l, maxRetries - (k - 1) = l + 1 :=
      ⟨maxRetries - k, by omega⟩
    rw [hl] at hskip
    have hcf : ¬(isNetworkError msg = true ∧ k ≠ maxRetries) := by
      intro hcc
      exact hc ⟨hcc.1, by omega⟩
    rw [retryGo_fatal l hk hcf] at hskip
    unfold sendEmailWithRetry
    rw [hskip]
    exact ⟨by show k - 1 + 1 = k; omega, rfl, rfl⟩

/-- Witness for C4: a validation-type error on the first attempt gives
exactly one provider invocation. -/
theorem claim_C4_witness :
    if isNetworkError "Invalid recipient address" = true ∧ 1 < 3 then
      1 + 1 ≤ (sendEmailWithRetry fatalSender 3).invocations
    else
      (sendEmailWithRetry fatalSender 3).invocations = 1 ∧
        (sendEmailWithRetry fatalSender 3).success = false ∧
        (sendEmailWithRetry fatalSender 3).errMsg =
          some "Invalid recipient address" :=
  claim_C4_fatal_aborts fatalSender 3 1 "Invalid recipient address"
    (by omega) (by omega) (fun j h1 h2 => absurd h2 (by omega)) rfl

theorem expWaits_length_of_two_le :
    ∀ (d a : Nat), 2 ≤ a → (expWaits a d).length = d := by
  intro d
  induction d with
  | zero => intro a _; rfl
  | succ d ih =>
    intro a ha
    show (preWaits a ++ expWaits (a + 1) d).length = d + 1
    rw [List.length_append, ih (a + 1) (by omega)]
    simp [preWaits, show 1 < a by omega]
    omega

theorem expWaits_one_length : ∀ d : Nat, (expWaits 1 d).length = d - 1 := by
  intro d
  cases d with
  | zero => rfl
  | succ d' =>
    show (preWaits 1 ++ expWaits 2 d').length = d' + 1 - 1
    rw [List.length_append, expWaits_length_of_two_le d' 2 (by omega)]
    simp [preWaits]

theorem take_len_append_cons :
    ∀ (l1 : List Nat) (e : Nat) (r : List Nat),
      (l1 ++ e :: r).take (l1.length + 1) = l1 ++ [e] := by
  intro l1
  induction l1 with
  | nil => intro e r; rfl
  | cons a t ih =>
    intro e r
    show (a :: (t ++ e :: r)).take (t.length + 1 + 1) = a :: (t ++ [e])
    rw [List.take_succ_cons, ih e r]

/-- C5: in a run whose first `k - 1` attempts failed with network-classified
errors, the waits performed so far are the backoff delays of attempts
`2 .. k-1` and then, immediately before invoking attempt `k`, a wait of
exactly `min(1000 * 2^(k-1), 10000)` ms; and a run whose first attempt
succeeds performs no wait at all (no delay before the first attempt). -/
theorem claim_C5_backoff_delay (sender sender2 : Nat → SendOutcome)
    (maxRetries maxR2 k : Nat) (hk2 : 2 ≤ k) (hkm : k ≤ maxRetries)
    (hprior : ∀ j, 1 ≤ j → j < k →
      ∃ mj, sender j = .err mj ∧ isNetworkError mj = true)
    (hfirst : sender2 1 = .ok) :
    (sendEmailWithRetry sender maxRetries).waits.take (k - 1) =
        expWaits 1 (k - 1) ++ [min (1000 * 2 ^ (k - 1)) 10000] ∧
      (sendEmailWithRetry sender2 maxR2).waits = [] := by
  constructor
  · obtain ⟨d, rfl⟩ : ∃ d, k = d + 2 := ⟨k - 2, by omega⟩
    have hskip := retryGo_skip sender maxRetries (d + 1) 1 maxRetries
      (by omega)
      (fun j hj => by
        obtain ⟨mj, hmj, hnj⟩ := hprior (1 + j) (by omega) (by omega)
        exact ⟨⟨mj, hmj, hnj⟩, by omega⟩)
    rw [show 1 + (d + 1) = d + 2 from by omega] at hskip
    obtain ⟨l, hl⟩ : ∃ l, maxRetries - (d + 1) = l + 1 :=
      ⟨maxRetries - (d + 2), by omega⟩
    rw [hl] at hskip
    have hhead : ∃ rest, (retryGo sender maxRetries (d + 2) (l + 1)).waits =
        expDelay (d + 2) :: rest := by
      cases hs : sender (d + 2) with
      | ok =>
        refine ⟨[], ?_⟩
        rw [retryGo_ok maxRetries l hs]
        simp [preWaits]
      | err mk2 =>
        by_cases hcc : isNetworkError mk2 = true ∧ d + 2 ≠ maxRetries
        · refine ⟨(retryGo sender maxRetries (d + 2 + 1) l).waits, ?_⟩
          rw [retryGo_retry l hs hcc.1 hcc.2]
          show preWaits (d + 2) ++ _ = _
          rw [show preWaits (d + 2) = [expDelay (d + 2)] from by
            simp [preWaits]]
          rfl
        · refine ⟨[], ?_⟩
          rw [retryGo_fatal l hs hcc]
          simp [preWaits]
    obtain ⟨rest, hrest⟩ := hhead
    unfold sendEmailWithRetry
    rw [hskip]
    show (expWaits 1 (d + 1) ++
        (retryGo sender maxRetries (d + 2) (l + 1)).waits).take (d + 1) =
      expWaits 1 (d + 1) ++ [min (1000 * 2 ^ (d + 1)) 10000]
    rw [hrest]
    have hlen : (expWaits 1 (d + 1)).length = d := by
      rw [expWaits_one_length]
      omega
    have htake := take_len_append_cons (expWaits 1 (d + 1)) (expDelay (d + 2))
      rest
    rw [hlen] at htake
    exact htake
  · cases hm : maxR2 with
    | zero => rfl
    | succ m2 =>
      show (retryGo sender2 (m2 + 1) 1 (m2 + 1)).waits = []
      rw [retryGo_ok (m2 + 1) m2 hfirst]
      rfl

/-- Witness for C5: one network timeout then success, `k = 2`: the run waits
exactly `min(1000 * 2^1, 10000) = 2000` ms before the retry; and a
first-attempt success waits nothing. -/
theorem claim_C5_witness :
    (sendEmailWithRetry netOnceSender 3).waits.take (2 - 1) =
        expWaits 1 (2 - 1) ++ [min (1000 * 2 ^ (2 - 1)) 10000] ∧
      (sendEmailWithRetry okSender 5).waits = [] :=
  claim_C5_backoff_delay netOnceSender okSender 3 5 2 (by omega) (by omega)
    (fun j h1 h2 => by
      have hj : j = 1 := by omega
      subst hj
      exact ⟨"request timeout", rfl, by decide⟩)
    rfl

/-- C6 counterexample: in the claimed scenario (unseen email, provider
failing twice with a network timeout and succeeding on the third attempt),
the handler does report success — but the persisted record shows
`emailAttempts = 1`, not 3: the handler's `add` hard-codes `emailAttempts: 1`
and internal retries are not recorded. -/
theorem claim_C6_counterexample :
    (dispatch [] (some "A") (some "a@x.com") (some "web") netTwiceSender true
          true "m").status = DispatchStatus.sent ∧
      (findReg
          (dispatch [] (some "A") (some "a@x.com") (some "web") netTwiceSender
            true true "m").store "a@x.com").map Registration.emailAttempts =
        some 1 ∧
      ¬((findReg
          (dispatch [] (some "A") (some "a@x.com") (some "web") netTwiceSender
            true true "m").store "a@x.com").map Registration.emailAttempts =
        some 3) := by
  decide

/-- C6 as amended: for an unseen email with a provider that fails twice with
network-classified errors and succeeds on the third attempt, the dispatch
reports success (HTTP 200) after exactly 3 provider invocations, and the
persisted record has `delivered = true` and `attempts = 1` (the handler
records the dispatch, not the internal retries). -/
theorem claim_C6_retry_scenario (store : List Registration)
    (n c : Option String) (e m m1 m2 : String) (sender : Nat → SendOutcome)
    (hv : (falsy n || falsy (some e) || falsy c) = false)
    (hfind : findReg store e = none)
    (h1 : sender 1 = .err m1) (hn1 : isNetworkError m1 = true)
    (h2 : sender 2 = .err m2) (hn2 : isNetworkError m2 = true)
    (h3 : sender 3 = .ok) :
    dispatch store n (some e) c sender true true m =
        ⟨.sent, 200, false,
          store ++ [newRegistration e (n.getD "") (c.getD "")], 3⟩ ∧
      (newRegistration e (n.getD "") (c.getD "")).confirmationEmailSent =
        true ∧
      (newRegistration e (n.getD "") (c.getD "")).emailAttempts = 1 := by
  have e3 : retryGo sender 3 3 1 = ⟨true, 1, preWaits 3, none⟩ :=
    retryGo_ok 3 0 h3
  have e2 : retryGo sender 3 2 2 =
      ⟨(retryGo sender 3 3 1).success, 1 + (retryGo sender 3 3 1).invocations,
        preWaits 2 ++ (retryGo sender 3 3 1).waits,
        (retryGo sender 3 3 1).errMsg⟩ :=
    retryGo_retry 1 h2 hn2 (by omega)
  have e1 : retryGo sender 3 1 3 =
      ⟨(retryGo sender 3 2 2).success, 1 + (retryGo sender 3 2 2).invocations,
        preWaits 1 ++ (retryGo sender 3 2 2).waits,
        (retryGo sender 3 2 2).errMsg⟩ :=
    retryGo_retry 2 h1 hn1 (by omega)
  have hsucc : (sendEmailWithRetry sender 3).success = true := by
    show (retryGo sender 3 1 3).success = true
    rw [e1, e2, e3]
  have hinv : (sendEmailWithRetry sender 3).invocations = 3 := by
    show (retryGo sender 3 1 3).invocations = 3
    rw [e1, e2, e3]
    simp
  rw [dispatch_send_absent sender true true m hv hfind]
  refine ⟨?_, rfl, rfl⟩
  simp [afterSend, hsucc, hinv]

/-- Witness for the amended C6 at the concrete scenario inputs. -/
theorem claim_C6_witness :
    dispatch [] (some "A") (some "a@x.com") (some "web") netTwiceSender true
        true "m" =
      ⟨.sent, 200, false,
        [] ++ [newRegistration "a@x.com" ((some "A").getD "")
          ((some "web").getD "")], 3⟩ ∧
    (newRegistration "a@x.com" ((some "A").getD "")
        ((some "web").getD "")).confirmationEmailSent = true ∧
    (newRegistration "a@x.com" ((some "A").getD "")
        ((some "web").getD "")).emailAttempts = 1 :=
  claim_C6_retry_scenario [] (some "A") (some "web") "a@x.com" "m"
    "ETIMEDOUT" "ETIMEDOUT" netTwiceSender (by decide) (by decide) rfl
    (by decide) rfl (by decide) rfl

/-- C7 counterexample: after a TLS-class failure of attempt 1 (`k = 1`,
`maxRetries = 3`), the variant waits the linear `2000 * 1` ms **and then
also** the exponential `min(1000 * 2^1, 10000) = 2000` ms before attempt 2 —
4000 ms in total, not the claimed `2000 * k` "rather than the exponential
backoff". -/
theorem claim_C7_counterexample :
    (sendEmailWithRetry2 tlsOnceSender 3).waits =
        [2000 * 1, min (1000 * 2 ^ 1) 10000] ∧
      ¬((sendEmailWithRetry2 tlsOnceSender 3).waits.sum = 2000 * 1) := by
  decide

/-- C7 as amended: in the variant, after a TLS/handshake-class failure of
attempt `k < maxRetries` (earlier attempts having failed with
non-TLS network errors), the waits performed before attempt `k + 1` are the
linear `2000 * k` ms delay **in addition to** (followed by) the exponential
`min(1000 * 2^k, 10000)` ms backoff — not instead of it. -/
theorem claim_C7_tls_linear_backoff (sender : Nat → SendOutcome)
    (maxRetries k : Nat) (msgK : String) (hk1 : 1 ≤ k) (hkm : k < maxRetries)
    (hprior : ∀ j, 1 ≤ j → j < k →
      ∃ mj, sender j = .err mj ∧ isNetworkError mj = true ∧
        isTlsError mj = false)
    (hk : sender k = .err msgK) (htls : isTlsError msgK = true) :
    ((sendEmailWithRetry2 sender maxRetries).waits.drop (k - 1)).take 2 =
      [2000 * k, min (1000 * 2 ^ k) 10000] := by
  have hskip := retryGo2_skip sender maxRetries (k - 1) 1 maxRetries
    (by omega)
    (fun j hj => by
      obtain ⟨mj, hmj, hnj, htj⟩ := hprior (1 + j) (by omega) (by omega)
      exact ⟨⟨mj, hmj, hnj, htj⟩, by omega⟩)
  rw [show 1 + (k - 1) = k from by omega] at hskip
  obtain ⟨l, hl⟩ : ∃ l, maxRetries - (k - 1) = l + 1 :=
    ⟨maxRetries - k, by omega⟩
  rw [hl] at hskip
  have hkretry : retryGo2 sender maxRetries k (l + 1) =
      ⟨(retryGo2 sender maxRetries (k + 1) l).success,
        1 + (retryGo2 sender maxRetries (k + 1) l).invocations,
        preWaits k ++ sslWaits msgK k ++
          (retryGo2 sender maxRetries (k + 1) l).waits,
        (retryGo2 sender maxRetries (k + 1) l).errMsg⟩ :=
    retryGo2_retry l hk (isNetworkError2_of_tls htls) (by omega)
  obtain ⟨l2, rfl⟩ : ∃ l2, l = l2 + 1 := ⟨l - 1, by omega⟩
  have hhead : ∃ rest, (retryGo2 sender maxRetries (k + 1) (l2 + 1)).waits =
      expDelay (k + 1) :: rest := by
    cases hs : sender (k + 1) with
    | ok =>
      refine ⟨[], ?_⟩
      simp only [retryGo2_succ, hs]
      simp [preWaits, show (1:Nat) < k + 1 by omega]
    | err mN =>
      by_cases hcc : isNetworkError2 mN = true ∧ k + 1 ≠ maxRetries
      · refine ⟨sslWaits mN (k + 1) ++
          (retryGo2 sender maxRetries (k + 1 + 1) l2).waits, ?_⟩
        rw [retryGo2_retry l2 hs hcc.1 hcc.2]
        simp [preWaits, show (1:Nat) < k + 1 by omega, List.append_assoc]
      · refine ⟨[], ?_⟩
        simp only [retryGo2_succ, hs]
        rw [if_neg hcc]
        simp [preWaits, show (1:Nat) < k + 1 by omega]
  obtain ⟨rest, hrest⟩ := hhead
  have hsslv : sslWaits msgK k = [2000 * k] := by simp [sslWaits, htls]
  have hlenA : (expWaits 1 (k - 1) ++ preWaits k).length = k - 1 := by
    rw [List.length_append, expWaits_one_length]
    rcases Nat.lt_or_ge 1 k with hgt | hle
    · simp [preWaits, hgt]
      omega
    · have hk1' : k = 1 := by omega
      subst hk1'
      simp [preWaits]
  unfold sendEmailWithRetry2
  rw [hskip]
  show ((expWaits 1 (k - 1) ++
      (retryGo2 sender maxRetries k (l2 + 1 + 1)).waits).drop (k - 1)).take 2
    = [2000 * k, min (1000 * 2 ^ k) 10000]
  rw [hkretry]
  show ((expWaits 1 (k - 1) ++
      (preWaits k ++ sslWaits msgK k ++
        (retryGo2 sender maxRetries (k + 1) (l2 + 1)).waits)).drop
        (k - 1)).take 2
    = [2000 * k, min (1000 * 2 ^ k) 10000]
  rw [hrest, hsslv]
  rw [List.append_assoc (preWaits k) [2000 * k] (expDelay (k + 1) :: rest)]
  rw [← List.append_assoc (expWaits 1 (k - 1)) (preWaits k)
    ([2000 * k] ++ (expDelay (k + 1) :: rest))]
  rw [List.drop_left' hlenA]
  simp [expDelay]

/-- Witness for the amended C7: TLS failure on attempt 1, waits
`[2000 * 1, 2000]` before attempt 2. -/
theorem claim_C7_witness :
    ((sendEmailWithRetry2 tlsOnceSender 3).waits.drop (1 - 1)).take 2 =
      [2000 * 1, min (1000 * 2 ^ 1) 10000] :=
  claim_C7_tls_linear_backoff tlsOnceSender 3 1
    "DECODER routines::unsupported" (by omega) (by omega)
    (fun j h1 h2 => absurd h2 (by omega)) rfl (by decide)

/-- C9: in any `sendEmailWithRetry` run, the successive waits form a
non-decreasing sequence that stays below the 10000 ms cap (appending the cap
keeps the chain non-decreasing, so every wait is at most 10000 ms and the
delay before attempt `k` is non-decreasing in `k`). -/
theorem claim_C9_backoff_monotone (sender : Nat → SendOutcome)
    (maxRetries : Nat) :
    List.Chain' (fun a b => a ≤ b)
      ((sendEmailWithRetry sender maxRetries).waits ++ [10000]) :=
  (retryGo_waits_chain sender maxRetries maxRetries 1).1

/-- C10: when the send succeeds but the success-path store write throws (for
an existing undelivered record), the handler reports HTTP 500 and the catch
block records the attempt as *failed*: `emailAttempts` is incremented,
`lastEmailError` is set to the store error's message, and
`confirmationEmailSent` stays `false` — so a later dispatch for the same
email passes the already-sent check and invokes the provider again, a
duplicate send of an email that was in fact delivered. -/
theorem claim_C10_lost_delivery (store : List Registration)
    (n c : Option String) (e m m2 : String)
    (sender sender2 : Nat → SendOutcome) (r : Registration)
    (hv : (falsy n || falsy (some e) || falsy c) = false)
    (hfind : findReg store e = some r)
    (hnd : r.confirmationEmailSent = false)
    (hlt : r.emailAttempts + 1 < 3)
    (hsucc : (sendEmailWithRetry sender 3).success = true) :
    dispatch store n (some e) c sender false true m =
        ⟨.serverError, 500, false, updateFirst store e (markFailed m),
          (sendEmailWithRetry sender 3).invocations⟩ ∧
      findReg (dispatch store n (some e) c sender false true m).store e =
        some (markFailed m r) ∧
      (markFailed m r).confirmationEmailSent = false ∧
      (markFailed m r).emailAttempts = r.emailAttempts + 1 ∧
      (markFailed m r).lastEmailError = some m ∧
      1 ≤ (dispatch
          (dispatch store n (some e) c sender false true m).store n (some e) c
          sender2 true true m2).senderCalls := by
  have hd : dispatch store n (some e) c sender false true m =
      ⟨.serverError, 500, false, updateFirst store e (markFailed m),
        (sendEmailWithRetry sender 3).invocations⟩ := by
    rw [dispatch_send_found sender false true m hv hfind hnd (by omega)]
    simp [afterSend, hsucc]
  have hfind2 : findReg (updateFirst store e (markFailed m)) e =
      some (markFailed m r) := by
    have hu := findReg_updateFirst e (markFailed m) (fun _ => rfl) store
    rw [hfind] at hu
    exact hu
  have hnd2 : (markFailed m r).confirmationEmailSent = false := hnd
  have hlt2 : ¬((markFailed m r).emailAttempts ≠ 0 ∧
      3 ≤ (markFailed m r).emailAttempts) := by
    show ¬(r.emailAttempts + 1 ≠ 0 ∧ 3 ≤ r.emailAttempts + 1)
    omega
  refine ⟨hd, ?_, hnd2, rfl, rfl, ?_⟩
  · rw [hd]
    exact hfind2
  · rw [hd]
    show 1 ≤ (dispatch (updateFirst store e (markFailed m)) n (some e) c
      sender2 true true m2).senderCalls
    rw [dispatch_send_found sender2 true true m2 hv hfind2 hnd2 hlt2]
    rw [afterSend_senderCalls]
    exact retryGo_inv_pos sender2 3 1 3 (by omega)

/-- Witness for C10: pending record, successful send, failing success-path
write; the follow-up dispatch calls the provider again. -/
theorem claim_C10_witness :
    dispatch storePending (some "A") (some "a@x.com") (some "web") okSender
        false true "store write failed" =
      ⟨.serverError, 500, false,
        updateFirst storePending "a@x.com" (markFailed "store write failed"),
        (sendEmailWithRetry okSender 3).invocations⟩ ∧
    findReg
        (dispatch storePending (some "A") (some "a@x.com") (some "web")
          okSender false true "store write failed").store "a@x.com" =
      some (markFailed "store write failed"
        ⟨"a@x.com", "A", "web", false, 0, none⟩) ∧
    (markFailed "store write failed"
        ⟨"a@x.com", "A", "web", false, 0, none⟩).confirmationEmailSent =
      false ∧
    (markFailed "store write failed"
        ⟨"a@x.com", "A", "web", false, 0, none⟩).emailAttempts = 0 + 1 ∧
    (markFailed "store write failed"
        ⟨"a@x.com", "A", "web", false, 0, none⟩).lastEmailError =
      some "store write failed" ∧
    1 ≤ (dispatch
        (dispatch storePending (some "A") (some "a@x.com") (some "web")
          okSender false true "store write failed").store
        (some "A") (some "a@x.com") (some "web") okSender true true
        "m").senderCalls :=
  claim_C10_lost_delivery storePending (some "A") (some "web") "a@x.com"
    "store write failed" "m" okSender okSender
    ⟨"a@x.com", "A", "web", false, 0, none⟩ (by decide) (by decide)
    (by decide) (by decide) (by decide)
